import Mathlib

/-!
Verification of the calculator service in `src/calculator.py`.

The Python module defines an enumeration of four operations, request and
response models, four arithmetic functions (`add`, `subtract`, `multiply`,
`divide`), and a `calculate` handler that routes a validated request to the
matching arithmetic function and maps exceptions to HTTP error responses.

Python floats are modelled by `ℚ` (exact arithmetic): the routing, error
classification and echoing logic under verification is independent of the
numeric representation.  Python exceptions are modelled by an explicit
`PyExc` type, and the handler's try/except structure by `Except`.
-/

namespace Calculator

/-- The `OperationType` enum of `src/calculator.py` (lines 15-20). -/
inductive OperationType where
  | ADD
  | SUBTRACT
  | MULTIPLY
  | DIVIDE
deriving DecidableEq, Repr

/-- The string value of each enum member (`"add"`, `"subtract"`, `"multiply"`,
`"divide"`), as in the Python `str`-valued enum. -/
def OperationType.value : OperationType → String
  | OperationType.ADD => "add"
  | OperationType.SUBTRACT => "subtract"
  | OperationType.MULTIPLY => "multiply"
  | OperationType.DIVIDE => "divide"

/-- The `CalculationRequest` Pydantic model (lines 23-48): a validated
operation together with two numeric operands. -/
structure CalculationRequest where
  operation : OperationType
  num1 : ℚ
  num2 : ℚ
deriving DecidableEq

/-- The `CalculationResponse` Pydantic model (lines 51-69). -/
structure CalculationResponse where
  operation : String
  num1 : ℚ
  num2 : ℚ
  result : ℚ
deriving DecidableEq

/-- Python exceptions that the calculator code can raise: `ZeroDivisionError`
(raised by `divide`), `HTTPException` (raised by the handler's fallback
branch), and any other exception. -/
inductive PyExc where
  | zeroDivisionError (msg : String)
  | httpException (statusCode : Nat) (detail : String)
  | other (msg : String)
deriving DecidableEq, Repr

/-- Python `str(e)` on an exception.  For a Starlette `HTTPException` this is
`"<status_code>: <detail>"`; for the others it is the message. -/
def PyExc.str : PyExc → String
  | PyExc.zeroDivisionError m => m
  | PyExc.httpException code detail => toString code ++ ": " ++ detail
  | PyExc.other m => m

/-- Whether an exception is a `ZeroDivisionError` (the class test performed by
the `except ZeroDivisionError` clause). -/
def PyExc.isZeroDiv : PyExc → Bool
  | PyExc.zeroDivisionError _ => true
  | _ => false

/-- An HTTP error response raised as `HTTPException(status_code, detail)` at
the handler boundary. -/
structure HTTPError where
  statusCode : Nat
  detail : String
deriving DecidableEq, Repr

/-- `add` (lines 73-84): `return a + b`. -/
def add (a b : ℚ) : ℚ := a + b

/-- `subtract` (lines 87-98): `return a - b`. -/
def subtract (a b : ℚ) : ℚ := a - b

/-- `multiply` (lines 101-112): `return a * b`. -/
def multiply (a b : ℚ) : ℚ := a * b

/-- `divide` (lines 115-131): raises `ZeroDivisionError("Cannot divide by
zero")` when `b == 0`, otherwise returns `a / b`. -/
def divide (a b : ℚ) : Except PyExc ℚ :=
  if b = 0 then Except.error (PyExc.zeroDivisionError "Cannot divide by zero")
  else Except.ok (a / b)

/-- The routing step of `calculate` (lines 205-218): the if/elif chain on
`request.operation`, with the fallback `else` branch raising
`HTTPException(400, "Unsupported operation: ...")`. -/
def dispatch (op : OperationType) (a b : ℚ) : Except PyExc ℚ :=
  if op = OperationType.ADD then Except.ok (add a b)
  else if op = OperationType.SUBTRACT then Except.ok (subtract a b)
  else if op = OperationType.MULTIPLY then Except.ok (multiply a b)
  else if op = OperationType.DIVIDE then divide a b
  else Except.error (PyExc.httpException 400 ("Unsupported operation: " ++ op.value))

/-- The body of the `try` block of `calculate` (lines 203-226): route to the
arithmetic function, then build the `CalculationResponse` echoing the
operation string and the operands. -/
def calculateBody (request : CalculationRequest) : Except PyExc CalculationResponse :=
  match dispatch request.operation request.num1 request.num2 with
  | Except.error e => Except.error e
  | Except.ok result =>
      Except.ok { operation := request.operation.value, num1 := request.num1,
                  num2 := request.num2, result := result }

/-- The two `except` clauses of `calculate` (lines 228-237): a
`ZeroDivisionError` becomes `HTTPException(400, str(e))`; any other exception
becomes `HTTPException(500, "An error occurred: " ++ str(e))`. -/
def mapExc (e : PyExc) : HTTPError :=
  if e.isZeroDiv then { statusCode := 400, detail := e.str }
  else { statusCode := 500, detail := "An error occurred: " ++ e.str }

/-- The `calculate` handler (lines 183-237): the try body with its exception
mapping. -/
def calculate (request : CalculationRequest) : Except HTTPError CalculationResponse :=
  match calculateBody request with
  | Except.ok resp => Except.ok resp
  | Except.error e => Except.error (mapExc e)

/-- Parsing of the request's `operation` field into the `OperationType` enum
by value, as Pydantic coerces a string into the `str`-valued enum of
lines 15-20: only the four literal member values succeed. -/
def OperationType.ofString (s : String) : Option OperationType :=
  if s = "add" then some OperationType.ADD
  else if s = "subtract" then some OperationType.SUBTRACT
  else if s = "multiply" then some OperationType.MULTIPLY
  else if s = "divide" then some OperationType.DIVIDE
  else none

/-- A raw numeric field of the request body before validation: either a value
representable as a finite floating-point number, or not. -/
inductive RawValue where
  | finite (q : ℚ)
  | nonNumeric
deriving DecidableEq

/-- The raw, unvalidated request body for `POST /calculate`. -/
structure RawRequest where
  operation : String
  num1 : RawValue
  num2 : RawValue

/-- Modelled from the spec: the framework-level (FastAPI/Pydantic) schema
validation of the request body, which is not part of `src/` — it accepts the
body exactly when `operation` is one of the four enum literals and both
operands are finite numbers, and otherwise rejects the request before the
handler runs. -/
def validate (raw : RawRequest) : Option CalculationRequest :=
  match OperationType.ofString raw.operation, raw.num1, raw.num2 with
  | some op, RawValue.finite a, RawValue.finite b => some ⟨op, a, b⟩
  | _, _, _ => none

/-- Modelled from the spec: the full `POST /calculate` boundary — a request
rejected by schema validation yields HTTP 422 without invoking `calculate`;
otherwise the validated request is passed to `calculate`. -/
def handleRequest (raw : RawRequest) : Except HTTPError CalculationResponse :=
  match validate raw with
  | none => Except.error { statusCode := 422, detail := "Unprocessable Entity" }
  | some req => calculate req

/-- C1: for every valid request, the routing step of `calculate` returns the
arithmetic operator applied to the operands: `add` yields `num1 + num2`,
`subtract` yields `num1 - num2`, `multiply` yields `num1 * num2`, and
`divide` with `num2 ≠ 0` yields `num1 / num2`. -/
theorem dispatch_applies_operator (a b : ℚ) :
    dispatch OperationType.ADD a b = Except.ok (a + b) ∧
    dispatch OperationType.SUBTRACT a b = Except.ok (a - b) ∧
    dispatch OperationType.MULTIPLY a b = Except.ok (a * b) ∧
    (b ≠ 0 → dispatch OperationType.DIVIDE a b = Except.ok (a / b)) := by
  refine ⟨rfl, rfl, rfl, fun hb => ?_⟩
  simp [dispatch, divide, hb]

/-- Witness for C1 at the spec's concrete scenarios `add 10 5 = 15` and
`divide 10 5 = 2`. -/
theorem dispatch_applies_operator_witness :
    dispatch OperationType.ADD 10 5 = Except.ok 15 ∧
    dispatch OperationType.DIVIDE 10 5 = Except.ok 2 := by
  have h := dispatch_applies_operator 10 5
  refine ⟨?_, ?_⟩
  · rw [h.1]; norm_num
  · rw [h.2.2.2 (by norm_num)]; norm_num

/-- C2: dispatching `divide` with `num2 = 0` yields the classified
`ZeroDivisionError` and never a numeric result, and `calculate` reports it as
HTTP 400 with detail exactly `"Cannot divide by zero"`. -/
theorem divide_by_zero_classified (a : ℚ) (req : CalculationRequest)
    (hop : req.operation = OperationType.DIVIDE) (h2 : req.num2 = 0) :
    dispatch OperationType.DIVIDE a 0 =
      Except.error (PyExc.zeroDivisionError "Cannot divide by zero") ∧
    calculate req =
      Except.error { statusCode := 400, detail := "Cannot divide by zero" } := by
  obtain ⟨op, n1, n2⟩ := req
  cases hop
  cases h2
  exact ⟨by simp [dispatch, divide], by simp [calculate, calculateBody, dispatch, divide,
    mapExc, PyExc.isZeroDiv, PyExc.str]⟩

/-- Witness for C2 at the spec's concrete scenario `divide 10 0`. -/
theorem divide_by_zero_classified_witness :
    dispatch OperationType.DIVIDE 10 0 =
      Except.error (PyExc.zeroDivisionError "Cannot divide by zero") ∧
    calculate ⟨OperationType.DIVIDE, 10, 0⟩ =
      Except.error { statusCode := 400, detail := "Cannot divide by zero" } :=
  divide_by_zero_classified 10 ⟨OperationType.DIVIDE, 10, 0⟩ rfl rfl

/-- C4: dispatch of `add` and `multiply` is commutative in its two operands,
and dispatch of `subtract` is anti-symmetric:
`dispatch subtract a b = -(dispatch subtract b a)`. -/
theorem dispatch_comm_antisymm (a b : ℚ) :
    dispatch OperationType.ADD a b = dispatch OperationType.ADD b a ∧
    dispatch OperationType.MULTIPLY a b = dispatch OperationType.MULTIPLY b a ∧
    dispatch OperationType.SUBTRACT a b =
      Except.map (fun x => -x) (dispatch OperationType.SUBTRACT b a) := by
  refine ⟨?_, ?_, ?_⟩
  · simp [dispatch, add, add_comm]
  · simp [dispatch, multiply, mul_comm]
  · simp [dispatch, subtract, Except.map, neg_sub]

/-- C5: composing `multiply` then `divide` round-trips: for `b ≠ 0`,
dispatching `divide` on the result of dispatching `multiply a b` returns `a`
(exactly, in the exact-arithmetic model). -/
theorem multiply_divide_roundtrip (a b : ℚ) (hb : b ≠ 0) :
    Except.bind (dispatch OperationType.MULTIPLY a b)
      (fun p => dispatch OperationType.DIVIDE p b) = Except.ok a := by
  simp [dispatch, multiply, divide, Except.bind, hb]

/-- Witness for C5 at `a = 3`, `b = 2`. -/
theorem multiply_divide_roundtrip_witness :
    Except.bind (dispatch OperationType.MULTIPLY 3 2)
      (fun p => dispatch OperationType.DIVIDE p 2) = Except.ok 3 :=
  multiply_divide_roundtrip 3 2 (by norm_num)

/-- C6: `calculate` is a deterministic pure function of
`(operation, num1, num2)`: two invocations on identical inputs yield
identical outputs, the same result or the same error. -/
theorem calculate_deterministic (r1 r2 : CalculationRequest)
    (hop : r1.operation = r2.operation) (h1 : r1.num1 = r2.num1)
    (h2 : r1.num2 = r2.num2) : calculate r1 = calculate r2 := by
  obtain ⟨o1, a1, b1⟩ := r1
  obtain ⟨o2, a2, b2⟩ := r2
  cases hop
  cases h1
  cases h2
  rfl

/-- Witness for C6 at the spec's concrete scenario `add 10 5`. -/
theorem calculate_deterministic_witness :
    calculate ⟨OperationType.ADD, 10, 5⟩ = calculate ⟨OperationType.ADD, 10, 5⟩ :=
  calculate_deterministic ⟨OperationType.ADD, 10, 5⟩ ⟨OperationType.ADD, 10, 5⟩
    rfl rfl rfl

/-- C7: a request whose `operation` is not one of the four literals, or whose
operands are not finite numbers, fails schema validation and is answered with
HTTP 422 without ever reaching the dispatch logic of `calculate`. -/
theorem invalid_request_rejected_422 (raw : RawRequest)
    (h : OperationType.ofString raw.operation = none ∨
      raw.num1 = RawValue.nonNumeric ∨ raw.num2 = RawValue.nonNumeric) :
    validate raw = none ∧
    handleRequest raw =
      Except.error { statusCode := 422, detail := "Unprocessable Entity" } := by
  obtain ⟨o, n1, n2⟩ := raw
  have hv : validate ⟨o, n1, n2⟩ = none := by
    cases hop : OperationType.ofString o <;> cases n1 <;> cases n2 <;>
      simp_all [validate]
  exact ⟨hv, by simp [handleRequest, hv]⟩

/-- Witness for C7 at the spec's concrete scenario `modulo 1 2`. -/
theorem invalid_request_rejected_422_witness :
    validate ⟨"modulo", RawValue.finite 1, RawValue.finite 2⟩ = none ∧
    handleRequest ⟨"modulo", RawValue.finite 1, RawValue.finite 2⟩ =
      Except.error { statusCode := 422, detail := "Unprocessable Entity" } :=
  invalid_request_rejected_422 ⟨"modulo", RawValue.finite 1, RawValue.finite 2⟩
    (Or.inl (by decide))

/-- C8: any internal fault other than a `ZeroDivisionError` is mapped by
`calculate`'s exception-mapping step to HTTP 500 with detail
`"An error occurred: <message>"` carrying the raw failure message, so the
caller never observes an unhandled fault. -/
theorem unclassified_fault_maps_to_500 (e : PyExc) (h : e.isZeroDiv = false) :
    mapExc e = { statusCode := 500, detail := "An error occurred: " ++ e.str } := by
  simp [mapExc, h]

/-- Witness for C8 at a generic fault with message `"boom"`. -/
theorem unclassified_fault_maps_to_500_witness :
    mapExc (PyExc.other "boom") =
      { statusCode := 500, detail := "An error occurred: " ++ (PyExc.other "boom").str } :=
  unclassified_fault_maps_to_500 (PyExc.other "boom") rfl

/-- C9: every successful `calculate` response echoes the request unchanged:
`operation` is the string of the requested operation and `num1`, `num2` equal
the request's operands. -/
theorem response_echoes_request (req : CalculationRequest)
    (resp : CalculationResponse) (h : calculate req = Except.ok resp) :
    resp.operation = req.operation.value ∧ resp.num1 = req.num1 ∧
    resp.num2 = req.num2 := by
  obtain ⟨op, a, b⟩ := req
  unfold calculate calculateBody at h
  cases hd : dispatch op a b with
  | error e => rw [hd] at h; simp at h
  | ok r =>
      rw [hd] at h
      simp only [Except.ok.injEq] at h
      rw [← h]
      exact ⟨rfl, rfl, rfl⟩

/-- Witness for C9 at the spec's concrete scenario `add 10 5 = 15`. -/
theorem response_echoes_request_witness :
    ("add" : String) = (OperationType.ADD).value ∧ (10 : ℚ) = 10 ∧ (5 : ℚ) = 5 :=
  response_echoes_request ⟨OperationType.ADD, 10, 5⟩ ⟨"add", 10, 5, 15⟩ (by
    show Except.ok _ = _
    norm_num [calculate, calculateBody, dispatch, add, OperationType.value])

/-- C10: for every request whose operation is one of the four enum values,
the four-way dispatch is exhaustive — it yields a numeric result or the
division-by-zero error, so the fallback `else` branch raising
`HTTPException(400, "Unsupported operation: ...")` is unreachable. -/
theorem fallback_branch_unreachable (op : OperationType) (a b : ℚ) :
    (∃ r, dispatch op a b = Except.ok r) ∨
    dispatch op a b = Except.error (PyExc.zeroDivisionError "Cannot divide by zero") := by
  cases op with
  | ADD => exact Or.inl ⟨add a b, rfl⟩
  | SUBTRACT => exact Or.inl ⟨subtract a b, rfl⟩
  | MULTIPLY => exact Or.inl ⟨multiply a b, rfl⟩
  | DIVIDE =>
      by_cases hb : b = 0
      · exact Or.inr (by simp [dispatch, divide, hb])
      · exact Or.inl ⟨a / b, by simp [dispatch, divide, hb]⟩

end Calculator
